import Mathlib

set_option maxRecDepth 8192
set_option linter.unusedVariables false

/-! Shallow embedding of the `rfe` RF Explorer driver: the sweep/setup frame codec
    (src/src/spectrum_analyzer/sweep.rs, src/lib/src/common/message.rs) and the
    spectrum-analyzer facade (src/rfe/src/spectrum_analyzer/rf_explorer.rs).
    Bytes are modelled as natural numbers; amplitudes, which in the source are
    `f32` values of the exactly representable form `byte / -2.0`, are modelled
    as rationals. -/

/-- Parse errors of the codec, from `MessageParseError` in
    src/lib/src/common/message.rs. The `remainder` of `truncated` is the
    optional byte slice at which the reader loop restarts. `nom` errors are
    converted by the `From` impl there: `Err::Incomplete` becomes `incomplete`,
    every other `nom` error becomes `invalid`. -/
inductive ParseError where
  | incomplete
  | truncated (remainder : Option (List Nat))
  | invalid
  | unknownMessageType
deriving DecidableEq, Repr

deriving instance DecidableEq for Except

/-- EEOT byte sequence, from `Sweep::EEOT_BYTES` in
    src/src/spectrum_analyzer/sweep.rs. -/
def EEOT_BYTES : List Nat := [255, 254, 255, 254, 0]

/-- Modelled from the spec: the spectrum-analyzer `Config::PREFIX` bytes
    `#C2-F:`. The file defining `Config` for the codec crate is not among the
    sources; the spec documents the frame prefix bit-exactly in section 6. -/
def ConfigPrefixSA : List Nat := [35, 67, 50, 45, 70, 58]

/-- Modelled from the spec: the spectrum-analyzer `SetupInfo::<Model>::PREFIX`
    bytes `#C2-M:`; the spec documents the frame bit-exactly in section 6. -/
def SetupInfoPrefixSA : List Nat := [35, 67, 50, 45, 77, 58]

/-- One candidate window of the truncation scan in the sweep `try_from` of
    src/src/spectrum_analyzer/sweep.rs. `w` is the current 5-byte window;
    the result is the offset (relative to the window start) at which the
    `Truncated` remainder begins: past the sentinel for an EEOT hit
    (`Some(i + Sweep::EEOT_BYTES.len())` in the source), at the window start
    for a `Config`/`SetupInfo` prefix hit (`Some(i)`). -/
def windowHit (w : List Nat) : Option Nat :=
  if List.isPrefixOf w EEOT_BYTES then some EEOT_BYTES.length
  else if List.isPrefixOf w ConfigPrefixSA || List.isPrefixOf w SetupInfoPrefixSA then
    some 0
  else none

/-- The truncation scan `bytes.windows(5).enumerate().find_map(..)` of the sweep
    `try_from`: `i` is the index of the window currently at the head of the
    first argument within the scanned slice. `windows(5)` yields only full
    5-byte windows, so the scan stops once fewer than 5 bytes remain. -/
def scanWindows : List Nat → Nat → Option Nat
  | [], _ => none
  | b :: rest, i =>
    if 5 ≤ (b :: rest).length then
      match windowHit ((b :: rest).take 5) with
      | some off => some (i + off)
      | none => scanWindows rest (i + 1)
    else none

/-- The full truncation scan over the bytes following the sweep prefix. -/
def findTruncation (bs : List Nat) : Option Nat :=
  scanWindows bs 0

/-- Length parser of `SweepDataStandard` (`$S`): `length_data(u8)`; the one-byte
    length is the amplitude count. `nom::number::complete::u8` on empty input is
    a non-Incomplete `nom` error, hence `invalid`. -/
def lenStandard : List Nat → Except ParseError (Nat × List Nat)
  | [] => .error .invalid
  | b :: rest => .ok (b, rest)

/-- Length parser of `SweepDataExt` (`$s`):
    `length_data(map(u8, |len| (usize::from(len) + 1) * 16))`. -/
def lenExt : List Nat → Except ParseError (Nat × List Nat)
  | [] => .error .invalid
  | b :: rest => .ok ((b + 1) * 16, rest)

/-- Length parser of `SweepDataLarge` (`$z`): `length_data(be_u16)`, a two-byte
    big-endian length. -/
def lenLarge : List Nat → Except ParseError (Nat × List Nat)
  | b1 :: b2 :: rest => .ok (b1 * 256 + b2, rest)
  | _ => .error .invalid

/-- Modelled from the spec: `parse_opt_line_ending` (crate::common::parsers; the
    parsers file is absent from the sources). Per the source comment at its call
    site it consumes any `\r` or `\r\n` line ending and makes sure there are no
    bytes left; the spec (section 4.1) has frames terminated by `\r` or `\r\n`
    and any structural mismatch failing with `Invalid`. -/
def parseOptLineEnding (bs : List Nat) : Except ParseError Unit :=
  if bs = [] ∨ bs = [13] ∨ bs = [13, 10] then .ok () else .error .invalid

/-- Amplitude conversion of one byte: `f32::from(byte) / -2.`, exact in ℚ. -/
def ampOfByte (b : Nat) : ℚ :=
  (b : ℚ) / (-2)

/-- Shared body of the `TryFrom<&[u8]>` impls generated by `impl_sweep_data` in
    src/src/spectrum_analyzer/sweep.rs: consume the two-byte prefix, scan the
    remaining bytes for the EEOT sentinel or an embedded `Config`/`SetupInfo`
    prefix, parse the length-prefixed amplitude bytes via `lenf`, convert each
    amplitude byte to dBm, and require an optional line ending with no bytes
    left over. The `Truncated` remainder is `bytes.get(index..)`, which is
    `Some` exactly when the index is at most the length. -/
def sweepTryFrom (pfx : List Nat) (lenf : List Nat → Except ParseError (Nat × List Nat))
    (bytes : List Nat) : Except ParseError (List ℚ) :=
  if List.isPrefixOf pfx bytes then
    match findTruncation (bytes.drop pfx.length) with
    | some idx =>
      .error (.truncated (if idx ≤ (bytes.drop pfx.length).length then
        some ((bytes.drop pfx.length).drop idx) else none))
    | none =>
      match lenf (bytes.drop pfx.length) with
      | .error e => .error e
      | .ok (n, after) =>
        if after.length < n then .error .incomplete
        else
          match parseOptLineEnding (after.drop n) with
          | .error e => .error e
          | .ok _ => .ok ((after.take n).map ampOfByte)
  else .error .invalid

/-- `TryFrom<&[u8]> for SweepDataStandard` (`$S`). -/
def SweepDataStandard_tryFrom (bytes : List Nat) : Except ParseError (List ℚ) :=
  sweepTryFrom [36, 83] lenStandard bytes

/-- `TryFrom<&[u8]> for SweepDataExt` (`$s`). -/
def SweepDataExt_tryFrom (bytes : List Nat) : Except ParseError (List ℚ) :=
  sweepTryFrom [36, 115] lenExt bytes

/-- `TryFrom<&[u8]> for SweepDataLarge` (`$z`). -/
def SweepDataLarge_tryFrom (bytes : List Nat) : Except ParseError (List ℚ) :=
  sweepTryFrom [36, 122] lenLarge bytes

example : SweepDataStandard_tryFrom [36, 83, 2, 4, 255, 13, 10] =
    .ok ([4, 255].map ampOfByte) := rfl

example : SweepDataStandard_tryFrom [36, 83, 2, 4, 255, 9] = .error .invalid := by decide

example : SweepDataStandard_tryFrom [36, 83, 3, 4, 255] = .error .incomplete := by decide

example : SweepDataStandard_tryFrom [36, 83, 112, 255, 254, 255, 254, 0] =
    .error (.truncated (some [])) := by decide

example : SweepDataExt_tryFrom ([36, 115, 0] ++ List.replicate 16 2) =
    .ok ((List.replicate 16 2).map ampOfByte) := rfl

example : SweepDataLarge_tryFrom [36, 122, 0, 2, 4, 255, 13] =
    .ok ([4, 255].map ampOfByte) := rfl

theorem sweepTryFrom_ok_inv (pfx : List Nat)
    (lenf : List Nat → Except ParseError (Nat × List Nat)) (bytes : List Nat)
    (amps : List ℚ) (h : sweepTryFrom pfx lenf bytes = .ok amps) :
    List.isPrefixOf pfx bytes = true ∧
    ∃ n after, lenf (bytes.drop pfx.length) = .ok (n, after) ∧
      n ≤ after.length ∧ amps = (after.take n).map ampOfByte ∧
      (after.drop n = [] ∨ after.drop n = [13] ∨ after.drop n = [13, 10]) := by
  unfold sweepTryFrom at h
  split at h
  case isFalse => exact absurd h (by simp)
  case isTrue hpre =>
    refine ⟨hpre, ?_⟩
    split at h
    · exact absurd h (by simp)
    · split at h
      · exact absurd h (by simp)
      · rename_i n after hlen
        split at h
        · exact absurd h (by simp)
        · rename_i hge
          split at h
          · exact absurd h (by simp)
          · rename_i u htrail
            refine ⟨n, after, hlen, Nat.le_of_not_lt hge, ?_, ?_⟩
            · injection h with h2
              exact h2.symm
            · have := htrail
              unfold parseOptLineEnding at this
              split at this
              · assumption
              · exact absurd this (by simp)

theorem isPrefixOf_pair_inv (a b : Nat) (bytes : List Nat)
    (h : List.isPrefixOf [a, b] bytes = true) :
    ∃ rest, bytes = a :: b :: rest := by
  match bytes with
  | [] => simp [List.isPrefixOf] at h
  | [x] => simp [List.isPrefixOf] at h
  | x :: y :: rest =>
    simp [List.isPrefixOf] at h
    exact ⟨rest, by simp [h.1, h.2]⟩

theorem lenStandard_ok_inv (r : List Nat) (n : Nat) (after : List Nat)
    (h : lenStandard r = .ok (n, after)) : r = n :: after := by
  match r with
  | [] => simp [lenStandard] at h
  | b :: rest =>
    simp [lenStandard] at h
    simp [h.1, h.2]

theorem lenExt_ok_inv (r : List Nat) (n : Nat) (after : List Nat)
    (h : lenExt r = .ok (n, after)) : ∃ b, r = b :: after ∧ n = (b + 1) * 16 := by
  match r with
  | [] => simp [lenExt] at h
  | b :: rest =>
    simp [lenExt] at h
    exact ⟨b, by simp [h.2], h.1.symm⟩

theorem lenLarge_ok_inv (r : List Nat) (n : Nat) (after : List Nat)
    (h : lenLarge r = .ok (n, after)) : ∃ b1 b2, r = b1 :: b2 :: after ∧ n = b1 * 256 + b2 := by
  match r with
  | [] => simp [lenLarge] at h
  | [x] => simp [lenLarge] at h
  | b1 :: b2 :: rest =>
    simp [lenLarge] at h
    exact ⟨b1, b2, by simp [h.2], h.1.symm⟩

/-- C3: every sweep frame that decodes successfully yields its amplitude bytes
    in transmitted order, each byte `b` mapped to `-b/2` dBm, and the amplitude
    count is determined by the encoding: `n` for `$S` with one-byte length `n`,
    `(n+1)*16` for `$s` with one-byte length `n`, and the big-endian value
    `n1*256+n2` for `$z` with two-byte length. -/
theorem c3_sweep_decode_amplitudes :
    (∀ bytes amps, SweepDataStandard_tryFrom bytes = .ok amps →
      ∃ n payload rest, bytes = 36 :: 83 :: n :: (payload ++ rest) ∧
        payload.length = n ∧ amps = payload.map ampOfByte) ∧
    (∀ bytes amps, SweepDataExt_tryFrom bytes = .ok amps →
      ∃ n payload rest, bytes = 36 :: 115 :: n :: (payload ++ rest) ∧
        payload.length = (n + 1) * 16 ∧ amps = payload.map ampOfByte) ∧
    (∀ bytes amps, SweepDataLarge_tryFrom bytes = .ok amps →
      ∃ n1 n2 payload rest, bytes = 36 :: 122 :: n1 :: n2 :: (payload ++ rest) ∧
        payload.length = n1 * 256 + n2 ∧ amps = payload.map ampOfByte) ∧
    (∀ b : Nat, ampOfByte b = -(b : ℚ) / 2) := by
  refine ⟨?_, ?_, ?_, ?_⟩
  · intro bytes amps h
    obtain ⟨hpre, n, after, hlen, hle, hamps, -⟩ := sweepTryFrom_ok_inv _ _ _ _ h
    obtain ⟨r0, hbytes⟩ := isPrefixOf_pair_inv 36 83 bytes hpre
    subst hbytes
    have hdrop : List.drop (List.length [36, 83]) (36 :: 83 :: r0) = r0 := rfl
    rw [hdrop] at hlen
    have hr0 := lenStandard_ok_inv r0 n after hlen
    subst hr0
    exact ⟨n, after.take n, after.drop n, by rw [List.take_append_drop],
      by rw [List.length_take]; exact min_eq_left hle, hamps⟩
  · intro bytes amps h
    obtain ⟨hpre, n, after, hlen, hle, hamps, -⟩ := sweepTryFrom_ok_inv _ _ _ _ h
    obtain ⟨r0, hbytes⟩ := isPrefixOf_pair_inv 36 115 bytes hpre
    subst hbytes
    have hdrop : List.drop (List.length [36, 115]) (36 :: 115 :: r0) = r0 := rfl
    rw [hdrop] at hlen
    obtain ⟨b, hr0, hn⟩ := lenExt_ok_inv r0 n after hlen
    subst hr0
    refine ⟨b, after.take n, after.drop n, by rw [List.take_append_drop], ?_, hamps⟩
    rw [List.length_take, min_eq_left hle, hn]
  · intro bytes amps h
    obtain ⟨hpre, n, after, hlen, hle, hamps, -⟩ := sweepTryFrom_ok_inv _ _ _ _ h
    obtain ⟨r0, hbytes⟩ := isPrefixOf_pair_inv 36 122 bytes hpre
    subst hbytes
    have hdrop : List.drop (List.length [36, 122]) (36 :: 122 :: r0) = r0 := rfl
    rw [hdrop] at hlen
    obtain ⟨b1, b2, hr0, hn⟩ := lenLarge_ok_inv r0 n after hlen
    subst hr0
    refine ⟨b1, b2, after.take n, after.drop n, by rw [List.take_append_drop], ?_, hamps⟩
    rw [List.length_take, min_eq_left hle, hn]
  · intro b
    unfold ampOfByte
    ring

/-- Witness for C3 at concrete frames of each of the three encodings. -/
theorem c3_sweep_decode_amplitudes_witness :
    (∃ n payload rest, [36, 83, 2, 4, 255, 13, 10] = 36 :: 83 :: n :: (payload ++ rest) ∧
      payload.length = n ∧ [4, 255].map ampOfByte = payload.map ampOfByte) ∧
    (∃ n payload rest,
      ([36, 115, 0] ++ List.replicate 16 2) = 36 :: 115 :: n :: (payload ++ rest) ∧
      payload.length = (n + 1) * 16 ∧
      (List.replicate 16 2).map ampOfByte = payload.map ampOfByte) ∧
    (∃ n1 n2 payload rest, [36, 122, 0, 2, 4, 255, 13] = 36 :: 122 :: n1 :: n2 :: (payload ++ rest) ∧
      payload.length = n1 * 256 + n2 ∧ [4, 255].map ampOfByte = payload.map ampOfByte) :=
  ⟨c3_sweep_decode_amplitudes.1 _ _ rfl,
   c3_sweep_decode_amplitudes.2.1 _ _ rfl,
   c3_sweep_decode_amplitudes.2.2.1 _ _ rfl⟩

theorem isPrefixOf_refl_append (p r : List Nat) : List.isPrefixOf p (p ++ r) = true := by
  induction p with
  | nil => simp [List.isPrefixOf]
  | cons a as ih => simp [List.isPrefixOf, ih]

theorem scanWindows_first_hit (bs : List Nat) (j off : Nat)
    (hnone : ∀ k, k < j → windowHit ((bs.drop k).take 5) = none)
    (hlen : j + 5 ≤ bs.length)
    (hhit : windowHit ((bs.drop j).take 5) = some off) :
    ∀ i, scanWindows bs i = some (i + j + off) := by
  induction bs generalizing j with
  | nil => simp at hlen
  | cons b rest ih =>
    intro i
    match j with
    | 0 =>
      rw [scanWindows]
      rw [if_pos (by simpa using hlen)]
      simp only [List.drop] at hhit
      rw [hhit]
      simp
    | j' + 1 =>
      have h0 : windowHit ((b :: rest).take 5) = none := by
        have := hnone 0 (Nat.succ_pos j')
        simpa using this
      rw [scanWindows]
      rw [if_pos (by have h2 : (b :: rest).length = rest.length + 1 := rfl; omega)]
      rw [h0]
      have hres := ih j'
        (fun k hk => hnone (k + 1) (Nat.succ_lt_succ hk))
        (by have h2 : (b :: rest).length = rest.length + 1 := rfl; omega)
        hhit (i + 1)
      have harith : i + 1 + j' + off = i + (j' + 1) + off := by omega
      rw [hres, harith]

theorem sweepTryFrom_truncated (pfx : List Nat)
    (lenf : List Nat → Except ParseError (Nat × List Nat)) (rest : List Nat) (idx : Nat)
    (hscan : findTruncation rest = some idx) :
    sweepTryFrom pfx lenf (pfx ++ rest) =
      .error (.truncated (if idx ≤ rest.length then some (rest.drop idx) else none)) := by
  unfold sweepTryFrom
  rw [isPrefixOf_refl_append]
  simp only [if_true, List.drop_left, hscan]

/-- C4: when the truncation scan of sweep decoding finds the five-byte EEOT
    sentinel `FF FE FF FE 00` as the first hit in the payload window, decoding
    fails with `Truncated` whose remainder begins at the byte immediately after
    the sentinel; when it first finds the (five-byte window of the) `Config` or
    `SetupInfo` frame prefix, decoding fails with `Truncated` whose remainder
    begins at the start of that embedded frame. -/
theorem c4_sweep_truncated_remainder :
    ∀ (pfx : List Nat) (lenf : List Nat → Except ParseError (Nat × List Nat))
      (rest : List Nat) (j : Nat),
      (∀ k, k < j → windowHit ((rest.drop k).take 5) = none) →
      (((rest.drop j).take 5 = EEOT_BYTES →
        sweepTryFrom pfx lenf (pfx ++ rest) =
          .error (.truncated (some (rest.drop (j + 5))))) ∧
       ((rest.drop j).take 5 = ConfigPrefixSA.take 5 ∨
        (rest.drop j).take 5 = SetupInfoPrefixSA.take 5 →
        sweepTryFrom pfx lenf (pfx ++ rest) =
          .error (.truncated (some (rest.drop j))))) := by
  intro pfx lenf rest j hnone
  constructor
  · intro hw
    have hwin : windowHit ((rest.drop j).take 5) = some 5 := by rw [hw]; decide
    have hl : ((rest.drop j).take 5).length = 5 := by rw [hw]; decide
    rw [List.length_take, List.length_drop] at hl
    have hlen5 : j + 5 ≤ rest.length := by omega
    have hscan : findTruncation rest = some (0 + j + 5) :=
      scanWindows_first_hit rest j 5 hnone hlen5 hwin 0
    simp only [Nat.zero_add] at hscan
    rw [sweepTryFrom_truncated pfx lenf rest (j + 5) hscan, if_pos hlen5]
  · intro hw
    have hwin : windowHit ((rest.drop j).take 5) = some 0 := by
      rcases hw with hw | hw <;> rw [hw] <;> decide
    have hl : ((rest.drop j).take 5).length = 5 := by
      rcases hw with hw | hw <;> rw [hw] <;> decide
    rw [List.length_take, List.length_drop] at hl
    have hlen5 : j + 5 ≤ rest.length := by omega
    have hscan : findTruncation rest = some (0 + j + 0) :=
      scanWindows_first_hit rest j 0 hnone hlen5 hwin 0
    simp only [Nat.zero_add, Nat.add_zero] at hscan
    rw [sweepTryFrom_truncated pfx lenf rest j hscan, if_pos (by omega)]

/-- Witness for C4: an EEOT sentinel after the length byte, and an embedded
    `#C2-M:` SetupInfo frame after the length byte, at concrete inputs. -/
theorem c4_sweep_truncated_remainder_witness :
    SweepDataStandard_tryFrom [36, 83, 112, 255, 254, 255, 254, 0] =
      .error (.truncated (some [])) ∧
    SweepDataStandard_tryFrom [36, 83, 3, 35, 67, 50, 45, 77, 58] =
      .error (.truncated (some [35, 67, 50, 45, 77, 58])) := by
  constructor
  · have h := (c4_sweep_truncated_remainder [36, 83] lenStandard
      [112, 255, 254, 255, 254, 0] 1
      (fun k hk => by have hk0 : k = 0 := Nat.lt_one_iff.mp hk; subst hk0; decide)).1 (by decide)
    simpa [SweepDataStandard_tryFrom] using h
  · have h := (c4_sweep_truncated_remainder [36, 83] lenStandard
      [3, 35, 67, 50, 45, 77, 58] 1
      (fun k hk => by have hk0 : k = 0 := Nat.lt_one_iff.mp hk; subst hk0; decide)).2
      (Or.inr (by decide))
    simpa [SweepDataStandard_tryFrom] using h

theorem sweepTryFrom_standard_eval (n : Nat) (body : List Nat)
    (hscan : findTruncation (n :: body) = none) :
    SweepDataStandard_tryFrom (36 :: 83 :: n :: body) =
      if body.length < n then .error .incomplete
      else
        match parseOptLineEnding (body.drop n) with
        | .error e => .error e
        | .ok _ => .ok ((body.take n).map ampOfByte) := by
  unfold SweepDataStandard_tryFrom sweepTryFrom
  have hpre : List.isPrefixOf [36, 83] (36 :: 83 :: n :: body) = true := by
    simp [List.isPrefixOf]
  rw [hpre]
  have hd : List.drop (List.length [36, 83]) (36 :: 83 :: n :: body) = n :: body := rfl
  simp only [if_true, hd, hscan]
  rfl

/-- C5 (amended): for a standard `$S` frame declaring length `n`, provided the
    truncation scan finds no EEOT sentinel and no embedded `Config`/`SetupInfo`
    prefix in the post-prefix bytes: fewer than `n` payload bytes fail with
    `Incomplete`; bytes left over after the `n` amplitudes and the optional line
    ending fail with `Invalid`; otherwise decoding succeeds and the amplitude
    vector has length exactly `n`. -/
theorem c5_standard_sweep_length_trichotomy (n : Nat) (body : List Nat)
    (hscan : findTruncation (n :: body) = none) :
    (body.length < n →
      SweepDataStandard_tryFrom (36 :: 83 :: n :: body) = .error .incomplete) ∧
    (n ≤ body.length →
      (body.drop n = [] ∨ body.drop n = [13] ∨ body.drop n = [13, 10]) →
      ∃ amps, SweepDataStandard_tryFrom (36 :: 83 :: n :: body) = .ok amps ∧
        amps.length = n) ∧
    (n ≤ body.length →
      ¬(body.drop n = [] ∨ body.drop n = [13] ∨ body.drop n = [13, 10]) →
      SweepDataStandard_tryFrom (36 :: 83 :: n :: body) = .error .invalid) := by
  refine ⟨?_, ?_, ?_⟩
  · intro hlt
    rw [sweepTryFrom_standard_eval n body hscan, if_pos hlt]
  · intro hge htrail
    rw [sweepTryFrom_standard_eval n body hscan, if_neg (Nat.not_lt.mpr hge)]
    have hok : parseOptLineEnding (body.drop n) = .ok () := by
      unfold parseOptLineEnding
      rw [if_pos htrail]
    rw [hok]
    exact ⟨_, rfl, by rw [List.length_map, List.length_take]; exact min_eq_left hge⟩
  · intro hge htrail
    rw [sweepTryFrom_standard_eval n body hscan, if_neg (Nat.not_lt.mpr hge)]
    have hbad : parseOptLineEnding (body.drop n) = .error .invalid := by
      unfold parseOptLineEnding
      rw [if_neg htrail]
    rw [hbad]

/-- Counterexample to C5 as stated: a `$S` frame declaring 112 amplitudes with
    only 5 payload bytes present decodes to `Truncated`, not `Incomplete`,
    because those bytes are the EEOT sentinel, which the scan checks first. -/
theorem c5_counterexample_truncation_preempts :
    [255, 254, 255, 254, 0].length < 112 ∧
    SweepDataStandard_tryFrom (36 :: 83 :: 112 :: [255, 254, 255, 254, 0]) =
      .error (.truncated (some [])) ∧
    SweepDataStandard_tryFrom (36 :: 83 :: 112 :: [255, 254, 255, 254, 0]) ≠
      .error .incomplete := by
  exact ⟨by decide, by decide, by decide⟩

/-- Witness for C5 at concrete frames for all three branches. -/
theorem c5_standard_sweep_length_trichotomy_witness :
    SweepDataStandard_tryFrom (36 :: 83 :: 3 :: [4, 255]) = .error .incomplete ∧
    (∃ amps, SweepDataStandard_tryFrom (36 :: 83 :: 2 :: [4, 255, 13, 10]) = .ok amps ∧
      amps.length = 2) ∧
    SweepDataStandard_tryFrom (36 :: 83 :: 2 :: [4, 255, 9]) = .error .invalid :=
  ⟨(c5_standard_sweep_length_trichotomy 3 [4, 255] (by decide)).1 (by decide),
   (c5_standard_sweep_length_trichotomy 2 [4, 255, 13, 10] (by decide)).2.1
     (by decide) (by decide),
   (c5_standard_sweep_length_trichotomy 2 [4, 255, 9] (by decide)).2.2
     (by decide) (by decide)⟩

/-- Modelled from the spec: the signal-generator `SetupInfo::<Model>::PREFIX`
    bytes `#C3-M:`, from src/lib/src/signal_generator/setup_info.rs. -/
def SetupInfoPrefixSG : List Nat := [35, 67, 51, 45, 77, 58]

/-- Decoded SetupInfo message: main radio model code, optional expansion radio
    model code, firmware version bytes. Model codes are carried numerically;
    per spec section 9 unknown codes map to a dedicated Unknown variant, so
    every decoded code yields some model. -/
structure SetupInfoMsg where
  mainRadioModel : Nat
  expansionRadioModel : Option Nat
  firmwareVersion : List Nat
deriving DecidableEq, Repr

/-- ASCII decimal digit test. -/
def isDigit (b : Nat) : Bool :=
  decide (48 ≤ b) && decide (b ≤ 57)

/-- Value of a three-digit zero-padded ASCII decimal field. -/
def digitsVal (a b c : Nat) : Nat :=
  (a - 48) * 100 + (b - 48) * 10 + (c - 48)

/-- Firmware field: the remaining bytes up to the line ending. -/
def takeUntilCR : List Nat → List Nat
  | [] => []
  | b :: r => if b = 13 then [] else b :: takeUntilCR r

/-- Modelled from the spec: `SetupInfo::try_from_with_prefix` (the file
    rf_explorer/setup_info.rs it lives in is absent from the sources; it is
    called from src/lib/src/signal_generator/setup_info.rs). Per spec section 6
    a SetupInfo frame is `#C2-M:<main:03>,<exp:03>,<firmware>` (SA) or
    `#C3-M:...` (SG): after the prefix come two three-digit zero-padded decimal
    model fields separated by commas, then the firmware string. A field value
    that does not fit in a `u8` is a parse failure; the expansion value `255`
    means no expansion module is present, and every other value is decoded to a
    model (unknown codes become the Unknown variant). -/
def setupInfoTryFromWithPrefix (pfx bytes : List Nat) : Except ParseError SetupInfoMsg :=
  if List.isPrefixOf pfx bytes then
    match bytes.drop pfx.length with
    | m1 :: m2 :: m3 :: c1 :: e1 :: e2 :: e3 :: c2 :: rest =>
      if isDigit m1 && isDigit m2 && isDigit m3 && (c1 == 44) &&
         isDigit e1 && isDigit e2 && isDigit e3 && (c2 == 44) then
        if digitsVal m1 m2 m3 ≤ 255 ∧ digitsVal e1 e2 e3 ≤ 255 then
          .ok { mainRadioModel := digitsVal m1 m2 m3,
                expansionRadioModel :=
                  if digitsVal e1 e2 e3 = 255 then none else some (digitsVal e1 e2 e3),
                firmwareVersion := takeUntilCR rest }
        else .error .invalid
      else .error .invalid
    | _ => .error .incomplete
  else .error .invalid

/-- The decimal value of the expansion-slot field of a SetupInfo frame, when
    the frame is long enough to have one. -/
def expansionFieldValue (pfx bytes : List Nat) : Option Nat :=
  match bytes.drop pfx.length with
  | _ :: _ :: _ :: _ :: e1 :: e2 :: e3 :: _ => some (digitsVal e1 e2 e3)
  | _ => none

/-- `TryFrom<&[u8]> for SetupInfo<Model>` of the signal generator
    (src/lib/src/signal_generator/setup_info.rs), which delegates to
    `try_from_with_prefix` with the `#C3-M:` prefix. -/
def SetupInfoSG_tryFrom (bytes : List Nat) : Except ParseError SetupInfoMsg :=
  setupInfoTryFromWithPrefix SetupInfoPrefixSG bytes

/-- C7: for every decoded SetupInfo, the expansion radio model is `Some` iff
    the value in the expansion slot of the frame is not the absent
    sentinel 255. -/
theorem c7_expansion_model_iff_not_255 :
    ∀ pfx bytes si, setupInfoTryFromWithPrefix pfx bytes = .ok si →
      ∃ v, expansionFieldValue pfx bytes = some v ∧
        si.expansionRadioModel = (if v = 255 then none else some v) ∧
        (si.expansionRadioModel.isSome ↔ v ≠ 255) := by
  intro pfx bytes si h
  unfold setupInfoTryFromWithPrefix at h
  split at h
  · rename_i hpre
    unfold expansionFieldValue
    split at h
    · rename_i m1 m2 m3 c1 e1 e2 e3 c2 rest heq
      rw [heq]
      split at h
      · split at h
        · refine ⟨digitsVal e1 e2 e3, rfl, ?_, ?_⟩
          · injection h with h2
            rw [← h2]
          · injection h with h2
            rw [← h2]
            by_cases hv : digitsVal e1 e2 e3 = 255
            · simp [hv]
            · simp [hv]
        · exact absurd h (by simp)
      · exact absurd h (by simp)
    · exact absurd h (by simp)
  · exact absurd h (by simp)

/-- Witness for C7: the signal-generator fixtures `#C3-M:060,255,01.15\r\n`
    (no expansion module) and `#C3-M:060,061,01.15\r\n` (expansion present). -/
theorem c7_expansion_model_iff_not_255_witness :
    (∃ v, expansionFieldValue SetupInfoPrefixSG
        [35, 67, 51, 45, 77, 58, 48, 54, 48, 44, 50, 53, 53, 44, 48, 49, 46, 49, 53, 13, 10] =
        some v ∧
      (SetupInfoMsg.mk 60 none [48, 49, 46, 49, 53]).expansionRadioModel =
        (if v = 255 then none else some v) ∧
      ((SetupInfoMsg.mk 60 none [48, 49, 46, 49, 53]).expansionRadioModel.isSome ↔
        v ≠ 255)) ∧
    (∃ v, expansionFieldValue SetupInfoPrefixSG
        [35, 67, 51, 45, 77, 58, 48, 54, 48, 44, 48, 54, 49, 44, 48, 49, 46, 49, 53, 13, 10] =
        some v ∧
      (SetupInfoMsg.mk 60 (some 61) [48, 49, 46, 49, 53]).expansionRadioModel =
        (if v = 255 then none else some v) ∧
      ((SetupInfoMsg.mk 60 (some 61) [48, 49, 46, 49, 53]).expansionRadioModel.isSome ↔
        v ≠ 255)) :=
  ⟨c7_expansion_model_iff_not_255 SetupInfoPrefixSG _ _ (by decide),
   c7_expansion_model_iff_not_255 SetupInfoPrefixSG _ _ (by decide)⟩

/-- Modelled from the spec: `DspMode`, a small enumeration (its defining file
    is absent from the sources). -/
inductive DspMode where
  | auto
  | filter
  | fast
deriving DecidableEq, Repr

/-- Modelled from the spec: `TrackingStatus`, a small enumeration (its
    defining file is absent); `disabled` is its `Default`. -/
inductive TrackingStatus where
  | disabled
  | enabled
deriving DecidableEq, Repr

/-- `TrackingStatus::default()`. -/
def TrackingStatus.default : TrackingStatus := .disabled

/-- Modelled from the spec: the capability data of a radio `Model` consulted by
    the facade — frequency and span limits and the Plus-model flag (the `Model`
    enum file of the rfe crate is absent from the sources; spec sections 4.6
    and 9). Frequencies are integer Hz. -/
structure Model where
  isPlusModel : Bool
  minFreq : Nat
  maxFreq : Nat
  minSpan : Nat
  maxSpan : Nat
deriving DecidableEq, Repr

/-- Modelled from the spec: a `RadioModule` is one of the two physical RF
    front-ends, main or expansion, each carrying its model. -/
inductive RadioModule where
  | main (model : Model)
  | expansion (model : Model)
deriving DecidableEq, Repr

/-- `RadioModule::model()`. -/
def RadioModule.model : RadioModule → Model
  | .main m => m
  | .expansion m => m

/-- `RadioModule::is_main()`. -/
def RadioModule.isMain : RadioModule → Bool
  | .main _ => true
  | .expansion _ => false

/-- `RadioModule::is_expansion()`. -/
def RadioModule.isExpansion : RadioModule → Bool
  | .main _ => false
  | .expansion _ => true

/-- The `SetupInfo` value cached by the spectrum-analyzer `MessageContainer`,
    with the fields read by the facade getters
    (src/rfe/src/spectrum_analyzer/rf_explorer.rs lines 164-195). -/
structure SetupInfo where
  mainRadioModule : RadioModule
  expansionRadioModule : Option RadioModule
deriving DecidableEq, Repr

/-- The spectrum-analyzer `Config` cache value with the fields the facade
    reads; the config codec file is absent from the sources, so the fields
    follow the spec data model (section 3). -/
structure Config where
  start : Nat
  stop : Nat
  minAmpDbm : Int
  maxAmpDbm : Int
  sweepPoints : Nat
  isExpansionRadioModuleActive : Bool
deriving DecidableEq, Repr

/-- `Config::default()`, used by `SpectrumAnalyzer::config` via
    `unwrap_or_default`. -/
def Config.default : Config :=
  { start := 0, stop := 0, minAmpDbm := 0, maxAmpDbm := 0,
    sweepPoints := 0, isExpansionRadioModuleActive := false }

/-- Modelled from the spec: `Config::contains_start_stop_amp_range` (defined in
    the absent config file): the config reports the requested start, stop and
    amplitude range (section 4.4: "the device now reports the requested
    state"). -/
def Config.containsStartStopAmpRange (c : Config) (start stop : Nat)
    (minAmpDbm maxAmpDbm : Int) : Bool :=
  c.start == start && c.stop == stop && c.minAmpDbm == minAmpDbm &&
    c.maxAmpDbm == maxAmpDbm

/-- Commands sent by the spectrum-analyzer facade (`Command` constructors used
    by the modelled calls; the byte encoding is out of scope here). -/
inductive Command where
  | setConfig (start stop : Nat) (minAmpDbm maxAmpDbm : Int)
  | setSweepPointsExt (points : Nat)
  | setSweepPointsLarge (points : Nat)
  | switchModuleMain
  | switchModuleExp
  | setDsp (mode : DspMode)
  | startTracking (startHz stepHz : Nat)
deriving DecidableEq, Repr

/-- Facade error kinds, from the common `Error` enum (message strings and io
    payloads elided; `timedOut` carries the duration in milliseconds). -/
inductive Err where
  | invalidInput
  | invalidOperation
  | timedOut (ms : Nat)
deriving DecidableEq, Repr

/-- Modelled from the spec: `RfExplorer::COMMAND_RESPONSE_TIMEOUT` (defined in
    the absent core rf_explorer file), around 2 seconds, in milliseconds. -/
def COMMAND_RESPONSE_TIMEOUT : Nat := 2000

/-- Snapshot of the `MessageContainer` cache slots used by the claims
    (`MessageContainer` in src/rfe/src/spectrum_analyzer/rf_explorer.rs). -/
structure SAState where
  config : Option Config
  dspMode : Option DspMode
  trackingStatus : Option TrackingStatus
  setupInfo : Option SetupInfo
deriving DecidableEq, Repr

/-- `SpectrumAnalyzer::config`: the config slot or `Config::default()`. -/
def configGet (s : SAState) : Config :=
  s.config.getD Config.default

/-- `SpectrumAnalyzer::main_radio_module`: unwraps the setup-info slot; the
    outer `none` models the panic when the slot is empty. -/
def mainRadioModule (s : SAState) : Option RadioModule :=
  s.setupInfo.map (fun si => si.mainRadioModule)

/-- `SpectrumAnalyzer::expansion_radio_module`: unwraps the setup-info slot;
    the outer `none` models the panic when the slot is empty. -/
def expansionRadioModule (s : SAState) : Option (Option RadioModule) :=
  s.setupInfo.map (fun si => si.expansionRadioModule)

/-- `SpectrumAnalyzer::active_radio_module`: `none` models a panic (empty
    setup-info slot, or the expansion flag set with no expansion module to
    unwrap). -/
def activeRadioModule (s : SAState) : Option RadioModule :=
  if (configGet s).isExpansionRadioModuleActive then
    match expansionRadioModule s with
    | some (some m) => some m
    | _ => none
  else mainRadioModule s

/-- Environment of one blocking wait: either no message of the awaited kind
    arrives before the timeout (`silent`), or one arrives carrying `a`. -/
inductive WaitEnv (α : Type) where
  | silent
  | arrives (a : α)

/-- Semantics of `Condvar::wait_timeout_while(guard, timeout, cond)`: the call
    returns at once when `cond` is already false for the current slot value;
    otherwise it blocks, waking without timeout if an arrival makes `cond`
    false, and timing out otherwise. Returns the final slot value and the
    `timed_out()` flag of the `WaitTimeoutResult`. -/
def waitTimeoutWhile {α : Type} (slot : Option α) (env : WaitEnv α)
    (cond : Option α → Bool) : Option α × Bool :=
  if cond slot then
    match env with
    | .silent => (slot, true)
    | .arrives a => if cond (some a) then (some a, true) else (some a, false)
  else (slot, false)

/-- `SpectrumAnalyzer::request_tracking` (src/rfe/src/spectrum_analyzer/
    rf_explorer.rs lines 225-253): set the tracking-status slot to `None`, send
    `StartTracking`, run `wait_timeout_while(.., |ts| ts.is_some())`, and
    return `Ok(ts.unwrap_or_default())` unless the wait timed out. The result
    is paired with the list of commands sent. -/
def requestTracking (s : SAState) (env : WaitEnv TrackingStatus)
    (startHz stepHz : Nat) : Except Err TrackingStatus × List Command :=
  let slot : Option TrackingStatus := none
  let sent := [Command.startTracking startHz stepHz]
  let res := waitTimeoutWhile slot env (fun ts => ts.isSome)
  if res.2 = false then (.ok (res.1.getD TrackingStatus.default), sent)
  else (.error (.timedOut COMMAND_RESPONSE_TIMEOUT), sent)

/-- `SpectrumAnalyzer::set_dsp_mode`: return `Ok` before sending anything when
    the DSP slot already holds the requested mode; otherwise send `SetDsp` and
    wait for the slot to equal the requested value. -/
def setDspMode (s : SAState) (env : WaitEnv DspMode) (d : DspMode) :
    Except Err Unit × List Command :=
  if s.dspMode = some d then (.ok (), [])
  else
    let sent := [Command.setDsp d]
    let res := waitTimeoutWhile s.dspMode env (fun m => m != some d)
    if res.2 = false then (.ok (), sent)
    else (.error (.timedOut COMMAND_RESPONSE_TIMEOUT), sent)

/-- `SpectrumAnalyzer::MIN_MAX_AMP_RANGE_DBM = -120..=35`, as its end points. -/
def MIN_MAX_AMP_RANGE_DBM : Int × Int := (-120, 35)

/-- `SpectrumAnalyzer::validate_min_max_amps`: bottom strictly below top, both
    within the amplitude range. -/
def validateMinMaxAmps (minAmpDbm maxAmpDbm : Int) : Except Err Unit :=
  if minAmpDbm ≥ maxAmpDbm then .error .invalidInput
  else if ¬(MIN_MAX_AMP_RANGE_DBM.1 ≤ minAmpDbm ∧ minAmpDbm ≤ MIN_MAX_AMP_RANGE_DBM.2) then
    .error .invalidInput
  else if ¬(MIN_MAX_AMP_RANGE_DBM.1 ≤ maxAmpDbm ∧ maxAmpDbm ≤ MIN_MAX_AMP_RANGE_DBM.2) then
    .error .invalidInput
  else .ok ()

/-- `SpectrumAnalyzer::validate_start_stop`: start strictly below stop, both
    within the active model's frequency range, span within its span range.
    `none` models the panic of `active_radio_module()` on an empty setup-info
    slot (reached only after the start/stop comparison, as in the source). -/
def validateStartStop (s : SAState) (start stop : Nat) : Option (Except Err Unit) :=
  if start ≥ stop then some (.error .invalidInput)
  else
    match activeRadioModule s with
    | none => none
    | some activeModule =>
      if ¬(activeModule.model.minFreq ≤ start ∧ start ≤ activeModule.model.maxFreq) then
        some (.error .invalidInput)
      else if ¬(activeModule.model.minFreq ≤ stop ∧ stop ≤ activeModule.model.maxFreq) then
        some (.error .invalidInput)
      else if ¬(activeModule.model.minSpan ≤ stop - start ∧
          stop - start ≤ activeModule.model.maxSpan) then
        some (.error .invalidInput)
      else some (.ok ())

/-- `SpectrumAnalyzer::set_config` (lines 377-419): validate start/stop and
    amplitudes, send `SetConfig`, then return `Ok` at once if the current
    config already contains the requested values, and otherwise wait for a
    config that does. `none` models a panic; the result carries the list of
    commands sent. -/
def setConfig (s : SAState) (env : WaitEnv Config) (start stop : Nat)
    (minAmpDbm maxAmpDbm : Int) : Option (Except Err Unit × List Command) :=
  match validateStartStop s start stop with
  | none => none
  | some (.error e) => some (.error e, [])
  | some (.ok _) =>
    match validateMinMaxAmps minAmpDbm maxAmpDbm with
    | .error e => some (.error e, [])
    | .ok _ =>
      let sent := [Command.setConfig start stop minAmpDbm maxAmpDbm]
      if (configGet s).containsStartStopAmpRange start stop minAmpDbm maxAmpDbm then
        some (.ok (), sent)
      else
        let res := waitTimeoutWhile s.config env (fun config =>
          match config with
          | none => true
          | some config =>
            !(config.containsStartStopAmpRange start stop minAmpDbm maxAmpDbm))
        if res.2 = false then some (.ok (), sent)
        else some (.error (.timedOut COMMAND_RESPONSE_TIMEOUT), sent)

/-- `SpectrumAnalyzer::MIN_SWEEP_POINTS`. -/
def MIN_SWEEP_POINTS : Nat := 112

/-- The expected stored sweep-point count computed inside
    `SpectrumAnalyzer::set_sweep_points` (lines 448-453): requests below 112
    become `MIN_SWEEP_POINTS`; others are rounded down to a multiple of 16. -/
def expectedSweepPoints (sweepPoints : Nat) : Nat :=
  if sweepPoints < 112 then MIN_SWEEP_POINTS else (sweepPoints / 16) * 16

/-- `SpectrumAnalyzer::set_sweep_points` (lines 433-476): gate on Plus models,
    send the Ext or Large command by the 4096 threshold, then return `Ok` at
    once if the config already reports the expected rounded count, and
    otherwise wait for a config that does. `none` models a panic. -/
def setSweepPoints (s : SAState) (env : WaitEnv Config) (sweepPoints : Nat) :
    Option (Except Err Unit × List Command) :=
  match activeRadioModule s with
  | none => none
  | some activeModule =>
    if activeModule.model.isPlusModel = false then
      some (.error .invalidOperation, [])
    else
      let sent := if sweepPoints ≤ 4096 then [Command.setSweepPointsExt sweepPoints]
        else [Command.setSweepPointsLarge sweepPoints]
      if (configGet s).sweepPoints = expectedSweepPoints sweepPoints then
        some (.ok (), sent)
      else
        let res := waitTimeoutWhile s.config env (fun config =>
          match config with
          | none => true
          | some config => config.sweepPoints != expectedSweepPoints sweepPoints)
        if res.2 = false then some (.ok (), sent)
        else some (.error (.timedOut COMMAND_RESPONSE_TIMEOUT), sent)

/-- `SpectrumAnalyzer::activate_expansion_radio_module` (lines 288-317):
    `InvalidOperation` when no expansion module exists or it is already the
    active one; otherwise send `SwitchModuleExp`, wait for a config with the
    expansion flag set, and re-check the active module. `none` models a
    panic. -/
def activateExpansionRadioModule (s : SAState) (env : WaitEnv Config) :
    Option (Except Err Unit × List Command) :=
  match expansionRadioModule s with
  | none => none
  | some expansionModule =>
    if expansionModule.isNone then some (.error .invalidOperation, [])
    else
      match activeRadioModule s with
      | none => none
      | some activeModule =>
        if activeModule.isExpansion then some (.error .invalidOperation, [])
        else
          let sent := [Command.switchModuleExp]
          let res := waitTimeoutWhile s.config env (fun config =>
            match config with
            | none => true
            | some config => !config.isExpansionRadioModuleActive)
          match activeRadioModule { s with config := res.1 } with
          | none => none
          | some nowActive =>
            if nowActive.isExpansion then some (.ok (), sent)
            else some (.error (.timedOut COMMAND_RESPONSE_TIMEOUT), sent)

/-- A demonstration radio model for concrete witness states. -/
def demoModel : Model :=
  { isPlusModel := true, minFreq := 0, maxFreq := 1000000000000,
    minSpan := 0, maxSpan := 1000000000000 }

/-- A demonstration SetupInfo with no expansion module. -/
def demoSetupInfo : SetupInfo :=
  { mainRadioModule := .main demoModel, expansionRadioModule := none }

/-- A demonstration cached config. -/
def demoConfig : Config :=
  { start := 50, stop := 100, minAmpDbm := -120, maxAmpDbm := 35,
    sweepPoints := 112, isExpansionRadioModuleActive := false }

/-- A demonstration cache state. -/
def demoState : SAState :=
  { config := some demoConfig, dspMode := none, trackingStatus := none,
    setupInfo := some demoSetupInfo }

/-- C1 (code bug): for every state, environment and tracking parameters —
    including environments in which no tracking-status message ever arrives —
    `request_tracking` clears the slot, sends `StartTracking`, and then returns
    `Ok(TrackingStatus::default())` immediately: the wait predicate
    `|tracking_status| tracking_status.is_some()` is false for the slot just
    cleared to `None`, so `wait_timeout_while` never blocks, and the call never
    returns `TimedOut` as the claim (and the source's own comments) require. -/
theorem c1_request_tracking_returns_default_immediately :
    ∀ (s : SAState) (env : WaitEnv TrackingStatus) (startHz stepHz : Nat),
      requestTracking s env startHz stepHz =
        (.ok TrackingStatus.default, [Command.startTracking startHz stepHz]) := by
  intro s env startHz stepHz
  rfl

/-- C10: with an empty setup-info slot the getters `main_radio_module`,
    `expansion_radio_module` and `active_radio_module` all unwrap `None` and
    panic (modelled as `none`); once a SetupInfo is cached they are defined and
    return its fields. -/
theorem c10_module_getters_unwrap_setup_info :
    (∀ s : SAState, s.setupInfo = none →
      mainRadioModule s = none ∧ expansionRadioModule s = none ∧
      activeRadioModule s = none) ∧
    (∀ (s : SAState) (si : SetupInfo), s.setupInfo = some si →
      mainRadioModule s = some si.mainRadioModule ∧
      expansionRadioModule s = some si.expansionRadioModule) := by
  constructor
  · intro s h
    have hm : mainRadioModule s = none := by simp [mainRadioModule, h]
    have he : expansionRadioModule s = none := by simp [expansionRadioModule, h]
    refine ⟨hm, he, ?_⟩
    unfold activeRadioModule
    rw [he, hm]
    split
    · rfl
    · rfl
  · intro s si h
    exact ⟨by simp [mainRadioModule, h], by simp [expansionRadioModule, h]⟩

/-- Witness for C10: the empty state and a state holding `demoSetupInfo`. -/
theorem c10_module_getters_unwrap_setup_info_witness :
    (mainRadioModule (SAState.mk none none none none) = none ∧
     expansionRadioModule (SAState.mk none none none none) = none ∧
     activeRadioModule (SAState.mk none none none none) = none) ∧
    (mainRadioModule demoState = some demoSetupInfo.mainRadioModule ∧
     expansionRadioModule demoState = some demoSetupInfo.expansionRadioModule) :=
  ⟨c10_module_getters_unwrap_setup_info.1 (SAState.mk none none none none) rfl,
   c10_module_getters_unwrap_setup_info.2 demoState demoSetupInfo rfl⟩

/-- C8: `activate_expansion_radio_module` on a device whose cached SetupInfo
    has no expansion radio module returns `InvalidOperation` with no command
    sent to the port. -/
theorem c8_activate_expansion_module_gated :
    ∀ (s : SAState) (env : WaitEnv Config) (si : SetupInfo),
      s.setupInfo = some si → si.expansionRadioModule = none →
      activateExpansionRadioModule s env = some (.error .invalidOperation, []) := by
  intro s env si hs hexp
  unfold activateExpansionRadioModule
  have he : expansionRadioModule s = some none := by
    simp [expansionRadioModule, hs, hexp]
  rw [he]
  rfl

/-- Witness for C8 at `demoState`, whose SetupInfo has no expansion module. -/
theorem c8_activate_expansion_module_gated_witness :
    activateExpansionRadioModule demoState .silent =
      some (.error .invalidOperation, []) :=
  c8_activate_expansion_module_gated demoState .silent demoSetupInfo rfl rfl

theorem validateMinMaxAmps_invalid (minAmpDbm maxAmpDbm : Int)
    (h : minAmpDbm ≥ maxAmpDbm ∨ minAmpDbm < -120 ∨ 35 < minAmpDbm ∨
      maxAmpDbm < -120 ∨ 35 < maxAmpDbm) :
    validateMinMaxAmps minAmpDbm maxAmpDbm = .error .invalidInput := by
  unfold validateMinMaxAmps MIN_MAX_AMP_RANGE_DBM
  split_ifs with h1 h2 h3
  all_goals try rfl
  exfalso
  have h2a : (-120 : Int) <= minAmpDbm := h2.1
  have h2b : minAmpDbm <= (35 : Int) := h2.2
  have h3a : (-120 : Int) <= maxAmpDbm := h3.1
  have h3b : maxAmpDbm <= (35 : Int) := h3.2
  rcases h with h | h | h | h | h <;> omega

theorem validateStartStop_result (s : SAState) (start stop : Nat)
    (activeModule : RadioModule) (h : activeRadioModule s = some activeModule) :
    validateStartStop s start stop = some (.error .invalidInput) ∨
    (start < stop ∧ validateStartStop s start stop = some (.ok ())) := by
  unfold validateStartStop
  rw [h]
  by_cases h0 : start ≥ stop
  · rw [if_pos h0]
    exact Or.inl rfl
  · rw [if_neg h0]
    dsimp only
    split_ifs
    all_goals first
      | exact Or.inl rfl
      | exact Or.inr ⟨Nat.not_le.mp h0, rfl⟩

/-- C9: for the config-setting calls, a start frequency not strictly below the
    stop frequency, a minimum amplitude not strictly below the maximum, or an
    amplitude outside [-120, +35] dBm makes the call return `InvalidInput`
    before any command is sent. -/
theorem c9_set_config_validation_errors :
    ∀ (s : SAState) (env : WaitEnv Config) (start stop : Nat)
      (minAmpDbm maxAmpDbm : Int) (activeModule : RadioModule),
      activeRadioModule s = some activeModule →
      (start ≥ stop ∨ minAmpDbm ≥ maxAmpDbm ∨ minAmpDbm < -120 ∨ 35 < minAmpDbm ∨
        maxAmpDbm < -120 ∨ 35 < maxAmpDbm) →
      setConfig s env start stop minAmpDbm maxAmpDbm =
        some (.error .invalidInput, []) := by
  intro s env start stop minA maxA activeModule hact hbad
  unfold setConfig
  rcases validateStartStop_result s start stop activeModule hact with hv | ⟨hlt, hv⟩
  · rw [hv]
  · rw [hv]
    have hbad2 : minA ≥ maxA ∨ minA < -120 ∨ 35 < minA ∨ maxA < -120 ∨ 35 < maxA := by
      rcases hbad with h | h | h | h | h | h
      · exact absurd h (Nat.not_le.mpr hlt)
      · exact Or.inl h
      · exact Or.inr (Or.inl h)
      · exact Or.inr (Or.inr (Or.inl h))
      · exact Or.inr (Or.inr (Or.inr (Or.inl h)))
      · exact Or.inr (Or.inr (Or.inr (Or.inr h)))
    rw [validateMinMaxAmps_invalid minA maxA hbad2]

/-- Witness for C9 at a concrete state: swapped frequencies, and an amplitude
    below -120 dBm, each rejected with `InvalidInput` and nothing sent. -/
theorem c9_set_config_validation_errors_witness :
    setConfig demoState .silent 100 50 (-120) 35 =
      some (.error .invalidInput, []) ∧
    setConfig demoState .silent 50 100 (-121) 35 =
      some (.error .invalidInput, []) :=
  ⟨c9_set_config_validation_errors demoState .silent 100 50 (-120) 35
      (.main demoModel) (by decide) (by decide),
   c9_set_config_validation_errors demoState .silent 50 100 (-121) 35
      (.main demoModel) (by decide) (by decide)⟩

/-- C6: on a Plus model, `set_sweep_points(k)` computes the expected stored
    count `max(112, (k/16)*16)` — the largest multiple of 16 not exceeding `k`,
    clamped below to 112 — and returns `Ok` exactly when a config whose stored
    sweep-point count equals that value is available as confirmation, either
    already cached or arriving during the wait. -/
theorem c6_sweep_points_rounding :
    ∀ (s : SAState) (k : Nat) (cfg : Config) (activeModule : RadioModule),
      activeRadioModule s = some activeModule →
      activeModule.model.isPlusModel = true →
      k ≤ 65535 →
      expectedSweepPoints k = max 112 ((k / 16) * 16) ∧
      ∃ r, setSweepPoints s (.arrives cfg) k = some r ∧
        (r.1 = .ok () ↔ ((configGet s).sweepPoints = max 112 ((k / 16) * 16) ∨
          cfg.sweepPoints = max 112 ((k / 16) * 16))) := by
  intro s k cfg activeModule hact hplus hk
  have hmax : expectedSweepPoints k = max 112 ((k / 16) * 16) := by
    unfold expectedSweepPoints MIN_SWEEP_POINTS
    rcases Nat.lt_or_ge k 112 with h | h
    · rw [if_pos h, Nat.max_eq_left (by omega : (k / 16) * 16 ≤ 112)]
    · rw [if_neg (Nat.not_lt.mpr h), Nat.max_eq_right (by omega : 112 ≤ (k / 16) * 16)]
  refine ⟨hmax, ?_⟩
  rw [← hmax]
  by_cases hc : (configGet s).sweepPoints = expectedSweepPoints k
  · refine ⟨(.ok (), if k ≤ 4096 then [Command.setSweepPointsExt k]
      else [Command.setSweepPointsLarge k]), ?_, by simp [hc]⟩
    unfold setSweepPoints
    rw [hact]
    dsimp only
    rw [if_neg (by simp [hplus]), if_pos hc]
  · by_cases hcfg : cfg.sweepPoints = expectedSweepPoints k
    · refine ⟨(.ok (), if k ≤ 4096 then [Command.setSweepPointsExt k]
        else [Command.setSweepPointsLarge k]), ?_, by simp [hcfg]⟩
      unfold setSweepPoints
      rw [hact]
      dsimp only
      rw [if_neg (by simp [hplus]), if_neg hc]
      unfold waitTimeoutWhile
      cases hs : s.config with
      | none => simp [hcfg]
      | some c =>
        have hgc : c.sweepPoints ≠ expectedSweepPoints k := by
          have hcg : configGet s = c := by simp [configGet, hs]
          rw [← hcg]
          exact hc
        simp [hcfg, hgc]
    · refine ⟨(.error (.timedOut COMMAND_RESPONSE_TIMEOUT),
        if k ≤ 4096 then [Command.setSweepPointsExt k]
        else [Command.setSweepPointsLarge k]), ?_, by simp [hc, hcfg]⟩
      unfold setSweepPoints
      rw [hact]
      dsimp only
      rw [if_neg (by simp [hplus]), if_neg hc]
      unfold waitTimeoutWhile
      cases hs : s.config with
      | none => simp [hcfg]
      | some c =>
        have hgc : c.sweepPoints ≠ expectedSweepPoints k := by
          have hcg : configGet s = c := by simp [configGet, hs]
          rw [← hcg]
          exact hc
        simp [hcfg, hgc]

/-- Witness for C6 at `demoState` (Plus model): a request of 200 points with a
    confirming config of 192 points. -/
theorem c6_sweep_points_rounding_witness :
    expectedSweepPoints 200 = max 112 ((200 / 16) * 16) ∧
    ∃ r, setSweepPoints demoState
        (.arrives (Config.mk 50 100 (-120) 35 192 false)) 200 = some r ∧
      (r.1 = .ok () ↔ ((configGet demoState).sweepPoints = max 112 ((200 / 16) * 16) ∨
        (Config.mk 50 100 (-120) 35 192 false).sweepPoints =
          max 112 ((200 / 16) * 16))) :=
  c6_sweep_points_rounding demoState 200 (Config.mk 50 100 (-120) 35 192 false)
    (.main demoModel) (by decide) (by decide) (by decide)

/-- Counterexample to C2 as stated: at `demoState` the cached config already
    matches the requested start/stop/amplitude post-state, yet `set_config`
    still sends the `SetConfig` command — the snapshot check runs only after
    the send, so success is not returned "before encoding and sending the
    command bytes". -/
theorem c2_counterexample_set_config_sends_despite_match :
    (configGet demoState).containsStartStopAmpRange 50 100 (-120) 35 = true ∧
    setConfig demoState .silent 50 100 (-120) 35 =
      some (.ok (), [Command.setConfig 50 100 (-120) 35]) :=
  ⟨by decide, by decide⟩

/-- C2 (amended): `set_dsp_mode` returns success immediately and sends nothing
    when the DSP slot already matches; `set_config` and `set_sweep_points`
    validate and send their command unconditionally, and a matching snapshot
    then short-circuits only the wait, so they return success immediately after
    the send, for any wait environment. -/
theorem c2_send_and_wait_early_return :
    (∀ (s : SAState) (env : WaitEnv DspMode) (d : DspMode),
      s.dspMode = some d → setDspMode s env d = (.ok (), [])) ∧
    (∀ (s : SAState) (env : WaitEnv Config) (start stop : Nat) (minA maxA : Int),
      validateStartStop s start stop = some (.ok ()) →
      validateMinMaxAmps minA maxA = .ok () →
      (configGet s).containsStartStopAmpRange start stop minA maxA = true →
      setConfig s env start stop minA maxA =
        some (.ok (), [Command.setConfig start stop minA maxA])) ∧
    (∀ (s : SAState) (env : WaitEnv Config) (k : Nat) (activeModule : RadioModule),
      activeRadioModule s = some activeModule →
      activeModule.model.isPlusModel = true →
      (configGet s).sweepPoints = expectedSweepPoints k →
      setSweepPoints s env k = some (.ok (),
        if k ≤ 4096 then [Command.setSweepPointsExt k]
        else [Command.setSweepPointsLarge k])) := by
  refine ⟨?_, ?_, ?_⟩
  · intro s env d h
    unfold setDspMode
    rw [if_pos h]
  · intro s env start stop minA maxA hv hvm hmatch
    unfold setConfig
    rw [hv]
    dsimp only
    rw [hvm]
    dsimp only
    rw [if_pos hmatch]
  · intro s env k activeModule hact hplus hc
    unfold setSweepPoints
    rw [hact]
    dsimp only
    rw [if_neg (by simp [hplus]), if_pos hc]

/-- Witness for the amended C2 at concrete states: a matching DSP slot, the
    matching config of `demoState`, and a matching sweep-point count. -/
theorem c2_send_and_wait_early_return_witness :
    setDspMode (SAState.mk none (some DspMode.fast) none none) .silent DspMode.fast =
      (.ok (), []) ∧
    setConfig demoState .silent 50 100 (-120) 35 =
      some (.ok (), [Command.setConfig 50 100 (-120) 35]) ∧
    setSweepPoints demoState .silent 112 =
      some (.ok (), if 112 ≤ 4096 then [Command.setSweepPointsExt 112]
        else [Command.setSweepPointsLarge 112]) :=
  ⟨c2_send_and_wait_early_return.1 _ .silent DspMode.fast rfl,
   c2_send_and_wait_early_return.2.1 demoState .silent 50 100 (-120) 35
     (by decide) (by decide) (by decide),
   c2_send_and_wait_early_return.2.2 demoState .silent 112 (.main demoModel)
     (by decide) (by decide) (by decide)⟩
